import Mathlib

/-!
Verification development for the question-generation pipeline in
backend/app/routers/generate.py.

The Python source is shallowly embedded: pure helpers become Lean
functions; network and model calls are abstracted as oracles passed in
as function arguments, and the observable side effects (HTTP fetches,
blob uploads, model invocations, database row inserts) are reified as
explicit event lists and row lists so that theorems can speak about
what was attempted and in which order.
-/

/-! ## String helpers (Python substring test, urlparse hostname) -/

/-- Does the pattern occur as a contiguous run inside the haystack?
This is the embedding of the Python expression pat in s on strings. -/
def hasSubFrom (pat : List Char) : List Char → Bool
  | [] => pat.isEmpty
  | c :: t => pat.isPrefixOf (c :: t) || hasSubFrom pat t

/-- Python substring containment h in host. -/
def strHasSub (hay pat : String) : Bool :=
  hasSubFrom pat.toList hay.toList

/-- ASCII whitespace stripped by Python str.strip() (non-ASCII whitespace
is outside this model). -/
def isPyWs (c : Char) : Bool :=
  c = ' ' || c = '\t' || c = '\n' || c = '\r' || c = '\x0b' || c = '\x0c'

/-- Python str.strip(): drop leading and trailing whitespace. -/
def pyStrip (s : String) : String :=
  String.mk (((s.toList.dropWhile isPyWs).reverse.dropWhile isPyWs).reverse)

/-- Python str.lower() (ASCII case folding). -/
def pyLower (s : String) : String :=
  String.mk (s.toList.map Char.toLower)

/-- Python s.endswith(pat). -/
def endsWithStr (s pat : String) : Bool :=
  pat.toList.isSuffixOf s.toList

/-- The part of a character list before the first occurrence of a stop
character: split(c)[0]. -/
def takeUntilChar (stop : Char) (l : List Char) : List Char :=
  l.takeWhile (fun c => c != stop)

/-- Characters urllib.parse admits inside a scheme (after the leading letter). -/
def isSchemeChar (c : Char) : Bool :=
  c.isAlphanum || c = '+' || c = '-' || c = '.'

/-- Split a character list at the first colon, returning the part before it
and, when a colon exists, the part after it. -/
def takeUntilColon : List Char → List Char × Option (List Char)
  | [] => ([], none)
  | c :: t =>
    if c = ':' then ([], some t)
    else
      let (a, r) := takeUntilColon t
      (c :: a, r)

/-- A valid URL scheme: a letter followed by letters, digits, or plus, minus, dot. -/
def validScheme : List Char → Bool
  | [] => false
  | c :: t => c.isAlpha && t.all isSchemeChar

/-- Remove a leading scheme: as in urllib.parse, the text before the first
colon is treated as a scheme only when it has the valid scheme shape. -/
def afterScheme (url : List Char) : List Char :=
  match takeUntilColon url with
  | (before, some rest) => if validScheme before then rest else url
  | (_, none) => url

/-- The netloc component: present only when the remainder after the scheme
starts with two slashes, and then runs to the first slash, question mark
or hash character. -/
def netlocOf (url : List Char) : List Char :=
  match afterScheme url with
  | '/' :: '/' :: t => t.takeWhile (fun c => c ≠ '/' && c ≠ '?' && c ≠ '#')
  | _ => []

/-- Drop the userinfo part of a netloc: everything up to the last at sign. -/
def hostinfoOf (netloc : List Char) : List Char :=
  (netloc.reverse.takeWhile (fun c => c ≠ '@')).reverse

/-- urlparse(url).hostname or "" followed by lower(): extract the netloc,
drop userinfo, drop a trailing port, and lower-case the result.
(IPv6 bracket syntax and non-ASCII case folding are outside this model.) -/
def urlHostname (url : String) : String :=
  let h := (hostinfoOf (netlocOf url.toList)).takeWhile (fun c => c ≠ ':')
  pyLower (String.mk h)

/-! ## generate.py constants and small helpers -/

/-- SIZE_TO_COUNT = dict tiny 5, small 25, large 50. -/
def SIZE_TO_COUNT : List (String × Nat) := [("tiny", 5), ("small", 25), ("large", 50)]

/-- SIZE_TO_COUNT.get(size.lower(), 25) as used by every route. -/
def sizeToCount (size : String) : Nat :=
  match SIZE_TO_COUNT.lookup (pyLower size) with
  | some n => n
  | none => 25

/-- YOUTUBE_HOSTS from generate.py. -/
def YOUTUBE_HOSTS : List String :=
  ["youtube.com", "www.youtube.com", "youtu.be", "m.youtube.com"]

/-- detect_youtube: the lower-cased hostname of the URL contains one of the
known hosts as a substring (Python h in host). -/
def detectYoutube (url : String) : Bool :=
  let host := urlHostname url
  YOUTUBE_HOSTS.any (fun h => strHasSub host h)

/-- Embeds _infer_mime_type: first parameter of the content-type header, lower-cased;
when absent or generic binary, fall back to the URL suffix, defaulting to
text/html. -/
def inferMimeType (url : String) (contentTypeHeader : String) : String :=
  let mimeType := pyLower (String.mk (takeUntilChar ';' contentTypeHeader.toList))
  if mimeType = "" || mimeType = "application/octet-stream" then
    let lowerUrl := pyLower url
    if endsWithStr lowerUrl ".pdf" then "application/pdf"
    else if endsWithStr lowerUrl ".htm" || endsWithStr lowerUrl ".html" then "text/html"
    else "text/html"
  else mimeType

/-! ## Source fetching: content parts and network events -/

/-- A generation input part: a remote file reference (YouTube), an uploaded
blob, or inline text. -/
inductive ContentPart where
  | fileData (file_uri : String)
  | uploadedFile (body : String) (mime_type : String)
  | textPart (text : String)
deriving Repr, DecidableEq

/-- Observable network activity of the source-fetching stage. -/
inductive NetEvent where
  | fetch (url : String)
  | upload (mime_type : String)
  | callModel (model : String) (thinking_budget : Nat)
deriving Repr, DecidableEq

/-- Outcome of one HTTP GET, as seen by create_content_part_for_url. -/
inductive FetchOutcome where
  | transportError
  | response (status : Nat) (contentType : String) (body : String)

/-- The ambient network: what each GET would return. -/
structure NetEnv where
  fetch : String → FetchOutcome

/-- create_content_part_for_url: YouTube URLs yield a file_uri part with no
network activity; all other URLs are fetched, checked, and uploaded.
The returned list records the network events in order. -/
def createContentPartForUrl (env : NetEnv) (url : String) :
    Except String ContentPart × List NetEvent :=
  if detectYoutube url then
    (.ok (.fileData url), [])
  else
    match env.fetch url with
    | .transportError => (.error "failed_to_fetch_url", [.fetch url])
    | .response status ct body =>
      if status ≠ 200 then (.error "bad_url_status", [.fetch url])
      else
        let mimeType := inferMimeType url ct
        if !(mimeType = "application/pdf" || mimeType = "text/html" || mimeType = "text/plain") then
          (.error "unsupported_content_type", [.fetch url])
        else
          (.ok (.uploadedFile body mimeType), [.fetch url, .upload mimeType])

/-! ## Two-tier model invocation with overload fallback -/

/-- The data carried by a google.genai ServerError: the status code attribute
(code, or status_code as fallback) and str(exc). -/
structure ServerErrorInfo where
  code : Option Int
  message : String
deriving Repr, DecidableEq

/-- A failed backend call: either a ServerError (the only exception class the
fallback handler catches) or any other exception. -/
inductive BackendFailure where
  | serverError (e : ServerErrorInfo)
  | otherError (name : String)
deriving Repr, DecidableEq

/-- One generate_content invocation: which model and which thinking budget. -/
structure ModelCall where
  model : String
  thinking_budget : Nat
deriving Repr, DecidableEq

/-- The response object of a successful call; text may be None. -/
structure GenResponse where
  text : Option String
deriving Repr, DecidableEq

/-- is_overloaded = (code == 503) or ("UNAVAILABLE" in str(exc)). -/
def isOverloadedError (e : ServerErrorInfo) : Bool :=
  (e.code == some 503) || strHasSub e.message "UNAVAILABLE"

/-- Embeds _generate_with_fallback_parts. The backend oracle maps a call
configuration to its outcome (the content parts are fixed for the whole
request and are folded into the oracle). The primary model is tried with
thinking budget 128; on an overloaded ServerError exactly one fallback call
is made to the secondary model with thinking budget 0 and its outcome is
returned as is; every other failure propagates. The second component lists
the calls actually made, in order. -/
def generateWithFallbackParts
    (backend : ModelCall → Except BackendFailure GenResponse)
    (model_primary model_secondary : String) :
    Except BackendFailure GenResponse × List ModelCall :=
  let c1 : ModelCall := ⟨model_primary, 128⟩
  match backend c1 with
  | .ok r => (.ok r, [c1])
  | .error (.otherError n) => (.error (.otherError n), [c1])
  | .error (.serverError e) =>
    if isOverloadedError e then
      let c2 : ModelCall := ⟨model_secondary, 0⟩
      (backend c2, [c1, c2])
    else
      (.error (.serverError e), [c1])

/-! ## Theorems for claim C1 -/

/-- Claim C1: on an overload-class ServerError from the primary model
(status code 503 or an UNAVAILABLE signal) exactly one fallback call is made,
to the secondary model with the reduced thinking budget 0 (the primary uses
128), and its outcome — success or any further failure — is final; a
non-overload ServerError, or any other exception, propagates immediately with
the secondary model never invoked. -/
theorem fallback_overload_policy
    (backend : ModelCall → Except BackendFailure GenResponse)
    (mp ms : String) :
    (∀ r, backend ⟨mp, 128⟩ = .ok r →
      generateWithFallbackParts backend mp ms = (.ok r, [⟨mp, 128⟩])) ∧
    (∀ e, backend ⟨mp, 128⟩ = .error (.serverError e) → isOverloadedError e = true →
      generateWithFallbackParts backend mp ms = (backend ⟨ms, 0⟩, [⟨mp, 128⟩, ⟨ms, 0⟩])) ∧
    (∀ e, backend ⟨mp, 128⟩ = .error (.serverError e) → isOverloadedError e = false →
      generateWithFallbackParts backend mp ms = (.error (.serverError e), [⟨mp, 128⟩])) ∧
    (∀ n, backend ⟨mp, 128⟩ = .error (.otherError n) →
      generateWithFallbackParts backend mp ms = (.error (.otherError n), [⟨mp, 128⟩])) := by
  refine ⟨?_, ?_, ?_, ?_⟩ <;> intro x h
  · simp [generateWithFallbackParts, h]
  · intro hov
    simp [generateWithFallbackParts, h, hov]
  · intro hov
    simp [generateWithFallbackParts, h, hov]
  · simp [generateWithFallbackParts, h]

/-! ## JSON values and json.loads

JSON values as produced by json.loads. Numbers are modelled as integers:
the response schema declares every numeric field INTEGER, and numeric
literals with a fraction or exponent (and the non-standard NaN and Infinity
literals Python additionally accepts) are outside this model. Objects keep
their fields as an ordered association list; lookups return the last
binding for a key, matching Python dict construction where a later
duplicate key overwrites an earlier one. -/

inductive Json where
  | null
  | bool (b : Bool)
  | num (n : Int)
  | str (s : String)
  | arr (elems : List Json)
  | obj (fields : List (String × Json))
deriving Repr

/-- JSON whitespace as accepted by json.loads: space, tab, newline, return. -/
def skipWs : List Char → List Char
  | [] => []
  | c :: t => if c = ' ' || c = '\t' || c = '\n' || c = '\r' then skipWs t else c :: t

/-- Numeric value of a hexadecimal digit. -/
def hexVal (c : Char) : Option Nat :=
  if c.isDigit then some (c.toNat - 48)
  else if 'a' ≤ c && c ≤ 'f' then some (c.toNat - 87)
  else if 'A' ≤ c && c ≤ 'F' then some (c.toNat - 55)
  else none

/-- Body of a JSON string literal after the opening quote: returns the
decoded characters and the remainder after the closing quote. Escapes are
decoded as in json.loads; unescaped control characters are rejected.
(Surrogate-pair recombination is outside this model.) -/
def parseStringBody : List Char → Option (List Char × List Char)
  | [] => none
  | '"' :: rest => some ([], rest)
  | '\\' :: esc =>
    match esc with
    | '"' :: r => (parseStringBody r).map (fun p => ('"' :: p.1, p.2))
    | '\\' :: r => (parseStringBody r).map (fun p => ('\\' :: p.1, p.2))
    | '/' :: r => (parseStringBody r).map (fun p => ('/' :: p.1, p.2))
    | 'b' :: r => (parseStringBody r).map (fun p => ('\x08' :: p.1, p.2))
    | 'f' :: r => (parseStringBody r).map (fun p => ('\x0c' :: p.1, p.2))
    | 'n' :: r => (parseStringBody r).map (fun p => ('\n' :: p.1, p.2))
    | 'r' :: r => (parseStringBody r).map (fun p => ('\r' :: p.1, p.2))
    | 't' :: r => (parseStringBody r).map (fun p => ('\t' :: p.1, p.2))
    | 'u' :: h1 :: h2 :: h3 :: h4 :: r =>
      match hexVal h1, hexVal h2, hexVal h3, hexVal h4 with
      | some a, some b, some c, some d =>
        let n := ((a * 16 + b) * 16 + c) * 16 + d
        if h : n.isValidChar then
          (parseStringBody r).map (fun p => (Char.ofNatAux n h :: p.1, p.2))
        else none
      | _, _, _, _ => none
    | _ => none
  | c :: rest =>
    if c.toNat < 32 then none
    else (parseStringBody rest).map (fun p => (c :: p.1, p.2))

/-- Value of a digit run. -/
def digitsVal (l : List Char) : Nat :=
  l.foldl (fun a c => a * 10 + (c.toNat - 48)) 0

/-- A JSON integer literal at the head of the input. Leading zeros are
rejected as in json.loads; a following dot or exponent marks a non-integer
literal, which is outside this model. -/
def parseNumber (cs : List Char) : Option (Json × List Char) :=
  let (neg, cs2) :=
    match cs with
    | '-' :: t => (true, t)
    | _ => (false, cs)
  match cs2 with
  | [] => none
  | c :: t =>
    if c = '0' then
      match t with
      | d :: _ =>
        if d.isDigit || d = '.' || d = 'e' || d = 'E' then none
        else some (.num 0, t)
      | [] => some (.num 0, [])
    else if c.isDigit then
      let digits := (c :: t).takeWhile Char.isDigit
      let rest := (c :: t).dropWhile Char.isDigit
      let v : Int := if neg then -(digitsVal digits : Int) else (digitsVal digits : Int)
      match rest with
      | d :: _ =>
        if d = '.' || d = 'e' || d = 'E' then none
        else some (.num v, rest)
      | [] => some (.num v, [])
    else none

mutual

/-- One JSON value at the head of the input (fuel-bounded recursion). -/
def parseValue : Nat → List Char → Option (Json × List Char)
  | 0, _ => none
  | fuel + 1, cs =>
    match skipWs cs with
    | [] => none
    | 'n' :: 'u' :: 'l' :: 'l' :: rest => some (.null, rest)
    | 't' :: 'r' :: 'u' :: 'e' :: rest => some (.bool true, rest)
    | 'f' :: 'a' :: 'l' :: 's' :: 'e' :: rest => some (.bool false, rest)
    | '"' :: rest => (parseStringBody rest).map (fun p => (.str (String.mk p.1), p.2))
    | '[' :: rest =>
      (match skipWs rest with
       | ']' :: r2 => some (.arr [], r2)
       | cs2 => (parseArrayElems fuel cs2).map (fun p => (.arr p.1, p.2)))
    | '{' :: rest =>
      (match skipWs rest with
       | '}' :: r2 => some (.obj [], r2)
       | cs2 => (parseObjectFields fuel cs2).map (fun p => (.obj p.1, p.2)))
    | cs2 => parseNumber cs2

/-- Comma-separated values up to the closing bracket. -/
def parseArrayElems : Nat → List Char → Option (List Json × List Char)
  | 0, _ => none
  | fuel + 1, cs => do
    let (v, rest) ← parseValue fuel cs
    match skipWs rest with
    | ',' :: r2 => (parseArrayElems fuel r2).map (fun p => (v :: p.1, p.2))
    | ']' :: r2 => some ([v], r2)
    | _ => none

/-- Comma-separated key-value pairs up to the closing brace. -/
def parseObjectFields : Nat → List Char → Option (List (String × Json) × List Char)
  | 0, _ => none
  | fuel + 1, cs => do
    match skipWs cs with
    | '"' :: rest => do
      let (key, r1) ← parseStringBody rest
      match skipWs r1 with
      | ':' :: r2 => do
        let (v, r3) ← parseValue fuel r2
        match skipWs r3 with
        | ',' :: r4 => (parseObjectFields fuel r4).map (fun p => ((String.mk key, v) :: p.1, p.2))
        | '}' :: r4 => some ([(String.mk key, v)], r4)
        | _ => none
      | _ => none
    | _ => none

end

/-- json.loads: parse one JSON document and reject trailing input. -/
def jsonParse (s : String) : Option Json :=
  match parseValue (2 * s.length + 2) s.toList with
  | some (v, rest) => if (skipWs rest).isEmpty then some v else none
  | none => none

/-! ## Python value semantics used by the persistence step -/

/-- Exceptions the persistence step can raise. -/
inductive PyErr where
  | jsonDecodeError
  | attributeError
  | typeError
deriving Repr, DecidableEq

/-- Python truthiness of a JSON value. -/
def pyTruthy : Json → Bool
  | .null => false
  | .bool b => b
  | .num n => n != 0
  | .str s => s != ""
  | .arr l => !l.isEmpty
  | .obj l => !l.isEmpty

/-- Python str() of a JSON value. (The element text of list and dict
reprs is abbreviated; no spec flow prints them.) -/
def pyStr : Json → String
  | .str s => s
  | .num n => toString n
  | .bool true => "True"
  | .bool false => "False"
  | .null => "None"
  | .arr _ => "[...]"
  | .obj _ => "\x7b...\x7d"

/-- The binding a Python dict built from this field list would hold for the
key: the last occurrence wins. -/
def lookupLast (fields : List (String × Json)) (key : String) : Option Json :=
  match fields with
  | [] => none
  | (k, v) :: rest =>
    match lookupLast rest key with
    | some w => some w
    | none => if k = key then some v else none

/-- item.get(key): defined on dicts only; any other value raises. -/
def jsonGet (v : Json) (key : String) : Except PyErr (Option Json) :=
  match v with
  | .obj fields => .ok (lookupLast fields key)
  | _ => .error .attributeError

/-- Digit run to number, for int() of a string. -/
def parseIntDigits (l : List Char) : Option Nat :=
  if !l.isEmpty && l.all Char.isDigit then some (digitsVal l) else none

/-- Python int() of a JSON value: integers pass through, booleans become
0 or 1, numeric strings are parsed, everything else raises. -/
def pyInt : Json → Except PyErr Int
  | .num n => .ok n
  | .bool b => .ok (if b then 1 else 0)
  | .str s =>
    (match (pyStrip s).toList with
     | '-' :: d =>
       match parseIntDigits d with
       | some n => .ok (-(n : Int))
       | none => .error .typeError
     | '+' :: d =>
       match parseIntDigits d with
       | some n => .ok (n : Int)
       | none => .error .typeError
     | d =>
       match parseIntDigits d with
       | some n => .ok (n : Int)
       | none => .error .typeError)
  | _ => .error .typeError

/-- Python iteration as used by enumerate(options): lists yield elements,
strings yield one-character strings, dicts yield their keys, and every
other value raises. -/
def pyIter : Json → Except PyErr (List Json)
  | .arr l => .ok l
  | .str s => .ok (s.toList.map (fun c => .str (String.mk [c])))
  | .obj fields => .ok (fields.map (fun kv => .str kv.1))
  | _ => .error .typeError

/-- Python (x or None) on an optional string: an empty string is falsy. -/
def pyOrNone (s : Option String) : Option String :=
  match s with
  | some t => if t = "" then none else some t
  | none => none

/-- Python (x or dflt) on an optional string. -/
def pyOrStr (s : Option String) (dflt : String) : String :=
  match s with
  | some t => if t = "" then dflt else t
  | none => dflt

/-- Python (a or b or dflt) on two optional strings. -/
def pyOrStr2 (a b : Option String) (dflt : String) : String :=
  match a with
  | some s => if s = "" then pyOrStr b dflt else s
  | none => pyOrStr b dflt

/-! ## Persistence: _persist_generated_questions

The database is modelled by the rows the step would insert: one QuestionRow
per generated item, carrying the resolved topic and sub-topic names exactly
as they are passed to the INSERT statements, and one ChoiceRow per option.
A failure while processing an item aborts the step with the exception, as
in the source (rows already inserted before a mid-batch failure are not
tracked; no claim concerns them). -/

/-- One row of the choices table: the inserted text and is_correct flag. -/
structure ChoiceRow where
  choice_text : Json
  is_correct : Bool
deriving Repr

/-- One generated question as persisted: the topic and sub-topic names used
for the upserts (after str() and strip()), the question columns, and the
choice rows in insertion order. -/
structure QuestionRow where
  topicName : String
  subTopicName : String
  question_text : Option Json
  explanation : Option Json
  image_url : Option Json
  choices : List ChoiceRow
deriving Repr

/-- The JSON summary returned on success. -/
structure PersistSummary where
  status : String
  requested : Int
  created : Nat
  topic : String
deriving Repr, DecidableEq

/-- Result of the persistence step: the inserted rows and the summary. -/
structure PersistResult where
  rows : List QuestionRow
  summary : PersistSummary
deriving Repr

/-- Embeds (it.get("topic") or "").strip(): the per-item candidate examined by the
document-topic scan. A truthy non-string topic value has no strip method. -/
def itemTopicCandidate (it : Json) : Except PyErr String := do
  let t ← jsonGet it "topic"
  match t with
  | none => .ok ""
  | some v =>
    if pyTruthy v then
      match v with
      | .str s => .ok (pyStrip s)
      | _ => .error .attributeError
    else .ok ""

/-- The scan over items for the first candidate that is non-empty. -/
def firstItemTopic : List Json → Except PyErr (Option String)
  | [] => .ok none
  | it :: rest => do
    let candidate ← itemTopicCandidate it
    if candidate = "" then firstItemTopic rest else .ok (some candidate)

/-- Lines 404-414: document_topic = (topic_name or None); when unify_topic
and no caller topic, adopt the first non-empty stripped per-item topic,
else "General". -/
def resolveDocumentTopic (topic_name : Option String) (unify_topic : Bool)
    (data : List Json) : Except PyErr (Option String) := do
  let documentTopic := pyOrNone topic_name
  if unify_topic then
    match documentTopic with
    | some t => .ok (some t)
    | none =>
      let scanned ← firstItemTopic data
      match scanned with
      | some c => .ok (some c)
      | none => .ok (some "General")
  else
    .ok documentTopic

/-- sub_topic_name or item.get("sub_topic") or "Misc" (the item lookup is
reached only when the caller value is falsy, as Python or short-circuits). -/
def subTopicValue (sub_topic_name : Option String) (item : Json) : Except PyErr Json :=
  match sub_topic_name with
  | some s =>
    if s = "" then do
      let t ← jsonGet item "sub_topic"
      match t with
      | some v => if pyTruthy v then .ok v else .ok (.str "Misc")
      | none => .ok (.str "Misc")
    else .ok (.str s)
  | none => do
    let t ← jsonGet item "sub_topic"
    match t with
    | some v => if pyTruthy v then .ok v else .ok (.str "Misc")
    | none => .ok (.str "Misc")

/-- The body of the per-item loop: resolve the topic and sub-topic for the
item, read the question columns, and build the choice rows, marking
is_correct at the position equal to int(item.get("correct_index", 0)). -/
def processItem (unify_topic : Bool) (documentTopic : Option String)
    (topic_name sub_topic_name : Option String) (item : Json) :
    Except PyErr QuestionRow := do
  let useTopic : Json ←
    if unify_topic then
      .ok (match documentTopic with
           | some t => .str t
           | none => .null)
    else do
      let t ← jsonGet item "topic"
      match t with
      | some v =>
        if pyTruthy v then .ok v else .ok (.str (pyOrStr topic_name "General"))
      | none => .ok (.str (pyOrStr topic_name "General"))
  let useSubTopic ← subTopicValue sub_topic_name item
  let qt ← jsonGet item "question_text"
  let ex ← jsonGet item "explanation"
  let img ← jsonGet item "image_url"
  let options ← do
    let c ← jsonGet item "choices"
    match c with
    | some v => pyIter v
    | none => .ok []
  let correctIndex ← do
    let c ← jsonGet item "correct_index"
    match c with
    | some v => pyInt v
    | none => .ok 0
  .ok { topicName := pyStrip (pyStr useTopic)
      , subTopicName := pyStrip (pyStr useSubTopic)
      , question_text := qt
      , explanation := ex
      , image_url := img
      , choices := options.enum.map (fun p => ⟨p.2, ((p.1 : Int) == correctIndex)⟩) }

/-- The loop over the (already truncated) item list; created equals the
number of rows on success. -/
def persistLoop (unify_topic : Bool) (documentTopic : Option String)
    (topic_name sub_topic_name : Option String) :
    List Json → Except PyErr (List QuestionRow)
  | [] => .ok []
  | it :: rest => do
    let row ← processItem unify_topic documentTopic topic_name sub_topic_name it
    let rows ← persistLoop unify_topic documentTopic topic_name sub_topic_name rest
    .ok (row :: rows)

/-- json.loads gave a non-list: wrap it as a single-element list. -/
def wrapAsList (v : Json) : List Json :=
  match v with
  | .arr l => l
  | x => [x]

/-- Embeds _persist_generated_questions after parsing: count enforcement
(count = max(0, requested); truncation only when count > 0), document-topic
resolution, the per-item loop, and the summary. -/
def persistParsedQuestions (topic_name sub_topic_name : Option String)
    (parsedData : List Json) (requested_count : Int) (unify_topic : Bool) :
    Except PyErr PersistResult := do
  let count : Int := max 0 requested_count
  let data := if count > 0 then parsedData.take count.toNat else parsedData
  let documentTopic ← resolveDocumentTopic topic_name unify_topic data
  let rows ← persistLoop unify_topic documentTopic topic_name sub_topic_name data
  .ok { rows := rows
      , summary := { status := "ok"
                   , requested := requested_count
                   , created := rows.length
                   , topic := pyOrStr2 documentTopic topic_name "General" } }

/-- Embeds _persist_generated_questions: json.loads (raising on invalid JSON),
non-list wrapping, then the parsed pipeline. -/
def persistGeneratedQuestions (topic_name sub_topic_name : Option String)
    (json_text : String) (requested_count : Int) (unify_topic : Bool) :
    Except PyErr PersistResult :=
  match jsonParse json_text with
  | none => .error .jsonDecodeError
  | some parsed =>
    persistParsedQuestions topic_name sub_topic_name (wrapAsList parsed)
      requested_count unify_topic

/-- response.text or "[]" as computed by every route before persisting. -/
def normalizeResponseText (t : Option String) : String :=
  match t with
  | none => "[]"
  | some s => if s = "" then "[]" else s

/-! ## Route bodies -/

/-- Everything a route can fail with after credential checks: an
HTTPException with a machine-readable detail, a backend failure that
escaped the fallback handler, or an exception from the persistence step. -/
inductive RouteError where
  | httpError (detail : String)
  | backendError (e : BackendFailure)
  | persistError (e : PyErr)
deriving Repr

/-- The common tail of every route: invoke the models with fallback, default
an empty or absent response text to "[]", and persist. The caller topic and
sub-topic are passed as topic or None and sub_topic or None. The second
component is the list of model calls made. -/
def runGenerationAndPersist
    (backend : ModelCall → Except BackendFailure GenResponse)
    (model_primary model_secondary : String)
    (topic_name sub_topic_name : Option String) (count : Int) :
    Except RouteError PersistResult × List ModelCall :=
  match generateWithFallbackParts backend model_primary model_secondary with
  | (.error e, calls) => (.error (.backendError e), calls)
  | (.ok r, calls) =>
    match persistGeneratedQuestions (pyOrNone topic_name) (pyOrNone sub_topic_name)
        (normalizeResponseText r.text) count true with
    | .error pe => (.error (.persistError pe), calls)
    | .ok res => (.ok res, calls)

/-- The URL cleaning of generate_from_links:
normalized_urls = list of u.strip() for u in urls if (u or "").strip(). -/
def normalizedLinkUrls (urls : List String) : List String :=
  (urls.filter (fun u => pyStrip u != "")).map (fun u => pyStrip u)

/-- The fetch loop of generate_from_links: resolve each URL into a content
part in order, stopping at the first failure, with the network events
accumulated in order. -/
def fetchPartsLoop (env : NetEnv) : List String → Except String (List ContentPart) × List NetEvent
  | [] => (.ok [], [])
  | u :: rest =>
    match createContentPartForUrl env u with
    | (.error d, evs) => (.error d, evs)
    | (.ok p, evs) =>
      match fetchPartsLoop env rest with
      | (.error d, evs2) => (.error d, evs ++ evs2)
      | (.ok ps, evs2) => (.ok (p :: ps), evs ++ evs2)

/-- The body of generate_from_links after the credential checks: clean and
validate the URLs (zero non-blank entries fail with no_urls_provided, more
than 5 fail with too_many_links, both before any network activity), fetch
each link into a content part, invoke the models with fallback, and persist.
The event list records every fetch, upload, and model call in order. -/
def generateFromLinksBody (env : NetEnv)
    (backend : ModelCall → Except BackendFailure GenResponse)
    (model_primary model_secondary : String)
    (urls : List String) (size : String) (topic sub_topic : Option String) :
    Except RouteError PersistResult × List NetEvent :=
  let normalizedUrls := normalizedLinkUrls urls
  if normalizedUrls.isEmpty then
    (.error (.httpError "no_urls_provided"), [])
  else if normalizedUrls.length > 5 then
    (.error (.httpError "too_many_links"), [])
  else
    let count := sizeToCount size
    match fetchPartsLoop env normalizedUrls with
    | (.error d, evs) => (.error (.httpError d), evs)
    | (.ok _parts, evs) =>
      match generateWithFallbackParts backend model_primary model_secondary with
      | (.error e, calls) =>
        (.error (.backendError e),
         evs ++ calls.map (fun c => NetEvent.callModel c.model c.thinking_budget))
      | (.ok r, calls) =>
        let evs2 := evs ++ calls.map (fun c => NetEvent.callModel c.model c.thinking_budget)
        match persistGeneratedQuestions (pyOrNone topic) (pyOrNone sub_topic)
            (normalizeResponseText r.text) (count : Int) true with
        | .error pe => (.error (.persistError pe), evs2)
        | .ok res => (.ok res, evs2)

/-! ## Schema-conforming generated items

For theorems quantifying over parsed item lists, an item conforming to the
declared response schema (string fields, a string array of choices, an
integer correct_index, each field optional) is described by an ItemSpec and
injected into the Json model. -/

structure ItemSpec where
  question_text : Option String := none
  explanation : Option String := none
  image_url : Option String := none
  choices : List String := []
  correct_index : Option Int := none
  topic : Option String := none
  sub_topic : Option String := none

/-- An optional string field of the JSON object. -/
def optStrField (k : String) (v : Option String) : List (String × Json) :=
  match v with
  | some s => [(k, .str s)]
  | none => []

/-- An optional integer field of the JSON object. -/
def optIntField (k : String) (v : Option Int) : List (String × Json) :=
  match v with
  | some n => [(k, .num n)]
  | none => []

/-- The JSON object the backend would return for this item: present fields
only, choices always present as an array of strings. -/
def ItemSpec.toJson (i : ItemSpec) : Json :=
  .obj (optStrField "question_text" i.question_text ++
        optStrField "explanation" i.explanation ++
        optStrField "image_url" i.image_url ++
        [("choices", .arr (i.choices.map Json.str))] ++
        optIntField "correct_index" i.correct_index ++
        optStrField "topic" i.topic ++
        optStrField "sub_topic" i.sub_topic)

/-- The expected sub-topic string before the final strip: the caller value
when non-empty, else the item's own non-empty sub_topic, else "Misc". -/
def itemSubRaw (i : ItemSpec) : String :=
  match i.sub_topic with
  | some v => if v = "" then "Misc" else v
  | none => "Misc"

/-- Caller sub-topic override composed with the per-item fallback. -/
def specSubRaw (sn : Option String) (i : ItemSpec) : String :=
  match sn with
  | some s => if s = "" then itemSubRaw i else s
  | none => itemSubRaw i

/-- The row processItem builds for a schema-conforming item under topic
unification with resolved document topic dt. -/
def specRow (dt : String) (sn : Option String) (i : ItemSpec) : QuestionRow :=
  { topicName := pyStrip dt
  , subTopicName := pyStrip (specSubRaw sn i)
  , question_text := i.question_text.map Json.str
  , explanation := i.explanation.map Json.str
  , image_url := i.image_url.map Json.str
  , choices := (i.choices.map Json.str).enum.map
      (fun p => ⟨p.2, ((p.1 : Int) == i.correct_index.getD 0)⟩) }

/-- First-match-or-second choice on optional lookups. -/
def orOpt (x y : Option Json) : Option Json :=
  match x with
  | some w => some w
  | none => y

@[simp] theorem orOpt_none (y : Option Json) : orOpt none y = y := rfl

@[simp] theorem orOpt_some (w : Json) (y : Option Json) : orOpt (some w) y = some w := rfl

@[simp] theorem orOpt_none_right (x : Option Json) : orOpt x none = x := by
  cases x <;> rfl

@[simp] theorem lookupLast_nil (k : String) : lookupLast [] k = none := rfl

theorem lookupLast_append (a b : List (String × Json)) (k : String) :
    lookupLast (a ++ b) k = orOpt (lookupLast b k) (lookupLast a k) := by
  induction a with
  | nil => simp [lookupLast]
  | cons hd tl ih =>
    rcases hd with ⟨hk, hv⟩
    cases h1 : lookupLast b k <;> cases h2 : lookupLast tl k <;>
      simp [lookupLast, ih, h1, h2, orOpt]

@[simp] theorem lookupLast_optStrField (k q : String) (v : Option String) :
    lookupLast (optStrField q v) k = if q = k then v.map Json.str else none := by
  cases v <;> simp [optStrField, lookupLast]

@[simp] theorem lookupLast_optIntField (k q : String) (v : Option Int) :
    lookupLast (optIntField q v) k = if q = k then v.map Json.num else none := by
  cases v <;> simp [optIntField, lookupLast]

@[simp] theorem lookupLast_single (k q : String) (v : Json) :
    lookupLast [(q, v)] k = if q = k then some v else none := by
  simp [lookupLast]

@[simp] theorem lookupLast_cons (k q : String) (v : Json) (rest : List (String × Json)) :
    lookupLast ((q, v) :: rest) k = orOpt (lookupLast rest k) (if q = k then some v else none) := by
  cases h : lookupLast rest k <;> simp [lookupLast, h, orOpt]

@[simp] theorem except_bind_ok {e a b : Type} (x : a) (f : a -> Except e b) :
    (Except.ok x : Except e a) >>= f = f x := rfl

@[simp] theorem except_bind_error {e a b : Type} (err : e) (f : a -> Except e b) :
    (Except.error err : Except e a) >>= f = Except.error err := rfl

theorem jsonGet_toJson_question_text (i : ItemSpec) :
    jsonGet i.toJson "question_text" = .ok (i.question_text.map Json.str) := by
  simp [ItemSpec.toJson, jsonGet, lookupLast_append]

theorem jsonGet_toJson_explanation (i : ItemSpec) :
    jsonGet i.toJson "explanation" = .ok (i.explanation.map Json.str) := by
  simp [ItemSpec.toJson, jsonGet, lookupLast_append]

theorem jsonGet_toJson_image_url (i : ItemSpec) :
    jsonGet i.toJson "image_url" = .ok (i.image_url.map Json.str) := by
  simp [ItemSpec.toJson, jsonGet, lookupLast_append]

theorem jsonGet_toJson_choices (i : ItemSpec) :
    jsonGet i.toJson "choices" = .ok (some (.arr (i.choices.map Json.str))) := by
  simp [ItemSpec.toJson, jsonGet, lookupLast_append]

theorem jsonGet_toJson_correct_index (i : ItemSpec) :
    jsonGet i.toJson "correct_index" = .ok (i.correct_index.map Json.num) := by
  simp [ItemSpec.toJson, jsonGet, lookupLast_append]

theorem jsonGet_toJson_topic (i : ItemSpec) :
    jsonGet i.toJson "topic" = .ok (i.topic.map Json.str) := by
  simp [ItemSpec.toJson, jsonGet, lookupLast_append]

theorem jsonGet_toJson_sub_topic (i : ItemSpec) :
    jsonGet i.toJson "sub_topic" = .ok (i.sub_topic.map Json.str) := by
  simp [ItemSpec.toJson, jsonGet, lookupLast_append]

theorem subTopicValue_toJson (sn : Option String) (i : ItemSpec) :
    subTopicValue sn i.toJson = .ok (.str (specSubRaw sn i)) := by
  have hsub : i.sub_topic = none ∨ ∃ v, i.sub_topic = some v := by
    cases i.sub_topic
    · exact Or.inl rfl
    · exact Or.inr ⟨_, rfl⟩
  cases sn with
  | none =>
    rcases hsub with h | ⟨v, h⟩
    · simp [subTopicValue, jsonGet_toJson_sub_topic, h, specSubRaw, itemSubRaw]
    · by_cases hv : v = "" <;>
        simp [subTopicValue, jsonGet_toJson_sub_topic, h, specSubRaw, itemSubRaw,
              pyTruthy, hv]
  | some s =>
    by_cases hs : s = ""
    · rcases hsub with h | ⟨v, h⟩
      · simp [subTopicValue, jsonGet_toJson_sub_topic, h, specSubRaw, itemSubRaw, hs]
      · by_cases hv : v = "" <;>
          simp [subTopicValue, jsonGet_toJson_sub_topic, h, specSubRaw, itemSubRaw,
                pyTruthy, hs, hv]
    · simp [subTopicValue, specSubRaw, hs]

theorem processItem_toJson (dt : String) (tn sn : Option String) (i : ItemSpec) :
    processItem true (some dt) tn sn i.toJson = .ok (specRow dt sn i) := by
  simp [processItem, subTopicValue_toJson, jsonGet_toJson_question_text,
        jsonGet_toJson_explanation, jsonGet_toJson_image_url,
        jsonGet_toJson_choices, jsonGet_toJson_correct_index,
        pyIter, specRow, pyStr]
  cases i.correct_index <;> simp [pyInt]

@[simp] theorem pyStrip_empty_string : pyStrip "" = "" := by decide

/-- The per-item candidate the document-topic scan computes for a
schema-conforming item. -/
def specCandidate (i : ItemSpec) : String :=
  match i.topic with
  | some s => if s = "" then "" else pyStrip s
  | none => ""

theorem itemTopicCandidate_toJson (i : ItemSpec) :
    itemTopicCandidate i.toJson = .ok (specCandidate i) := by
  cases h : i.topic with
  | none => simp [itemTopicCandidate, jsonGet_toJson_topic, h, specCandidate]
  | some s =>
    by_cases hs : s = "" <;>
      simp [itemTopicCandidate, jsonGet_toJson_topic, h, specCandidate, pyTruthy, hs]

/-- The first per-item topic whose trimmed value is non-empty, trimmed —
the document topic the scan adopts when the caller supplied none. -/
def amendedFirstTopic : List ItemSpec → Option String
  | [] => none
  | i :: rest =>
    match i.topic with
    | some s => if pyStrip s = "" then amendedFirstTopic rest else some (pyStrip s)
    | none => amendedFirstTopic rest

theorem specCandidate_empty_iff (i : ItemSpec) :
    specCandidate i = "" ↔ (match i.topic with
                            | some s => pyStrip s = ""
                            | none => True) := by
  cases h : i.topic with
  | none => simp [specCandidate, h]
  | some s =>
    by_cases hs : s = "" <;> simp [specCandidate, h, hs]

theorem firstItemTopic_toJson (items : List ItemSpec) :
    firstItemTopic (items.map ItemSpec.toJson) = .ok (amendedFirstTopic items) := by
  induction items with
  | nil => rfl
  | cons i rest ih =>
    simp only [List.map_cons, firstItemTopic, itemTopicCandidate_toJson, except_bind_ok]
    cases h : i.topic with
    | none => simp [specCandidate, h, amendedFirstTopic, ih]
    | some s =>
      by_cases hs : s = ""
      · simp [specCandidate, h, hs, amendedFirstTopic, ih]
      · by_cases ht : pyStrip s = "" <;>
          simp [specCandidate, h, hs, ht, amendedFirstTopic, ih]

/-- The resolved document topic for a caller topic and a list of
schema-conforming items. -/
def resolvedTopicSpec (tn : Option String) (items : List ItemSpec) : String :=
  match pyOrNone tn with
  | some t => t
  | none => (amendedFirstTopic items).getD "General"

theorem resolveDocumentTopic_toJson (tn : Option String) (items : List ItemSpec) :
    resolveDocumentTopic tn true (items.map ItemSpec.toJson)
      = .ok (some (resolvedTopicSpec tn items)) := by
  cases h : pyOrNone tn with
  | some t => simp [resolveDocumentTopic, h, resolvedTopicSpec]
  | none =>
    simp [resolveDocumentTopic, h, resolvedTopicSpec, firstItemTopic_toJson]
    cases amendedFirstTopic items <;> simp

theorem amendedFirstTopic_ne_empty (items : List ItemSpec) (c : String)
    (h : amendedFirstTopic items = some c) : c ≠ "" := by
  induction items with
  | nil => simp [amendedFirstTopic] at h
  | cons i rest ih =>
    simp only [amendedFirstTopic] at h
    cases ht : i.topic with
    | none => exact ih (by simpa [ht] using h)
    | some s =>
      rw [ht] at h
      by_cases hs : pyStrip s = ""
      · exact ih (by simpa [hs] using h)
      · simp [hs] at h
        simpa [← h] using hs

theorem pyOrNone_ne_empty (tn : Option String) (t : String)
    (h : pyOrNone tn = some t) : t ≠ "" := by
  cases tn with
  | none => simp [pyOrNone] at h
  | some s =>
    by_cases hs : s = ""
    · simp [pyOrNone, hs] at h
    · have hst : s = t := by simpa [pyOrNone, hs] using h
      subst hst
      exact hs

theorem resolvedTopicSpec_ne_empty (tn : Option String) (items : List ItemSpec) :
    resolvedTopicSpec tn items ≠ "" := by
  unfold resolvedTopicSpec
  cases h : pyOrNone tn with
  | some t => exact pyOrNone_ne_empty tn t h
  | none =>
    cases ha : amendedFirstTopic items with
    | some c => simpa using amendedFirstTopic_ne_empty items c ha
    | none => simp

theorem persistLoop_toJson (dt : String) (tn sn : Option String) (items : List ItemSpec) :
    persistLoop true (some dt) tn sn (items.map ItemSpec.toJson)
      = .ok (items.map (specRow dt sn)) := by
  induction items with
  | nil => rfl
  | cons i rest ih =>
    simp [persistLoop, processItem_toJson, ih]

/-- The persistence outcome on a schema-conforming item list: the first
N items are kept, the document topic is the caller topic when non-empty
and otherwise the first non-blank per-item topic (trimmed) or "General",
and one row per kept item is inserted under that topic. -/
def persistSpec (tn sn : Option String) (items : List ItemSpec) (N : Int) :
    PersistResult :=
  let kept := items.take N.toNat
  let dt := resolvedTopicSpec tn kept
  { rows := kept.map (specRow dt sn)
  , summary := { status := "ok", requested := N, created := kept.length, topic := dt } }

theorem persistParsed_toJson (tn sn : Option String) (items : List ItemSpec)
    (N : Int) (h : 0 < N) :
    persistParsedQuestions tn sn (items.map ItemSpec.toJson) N true
      = .ok (persistSpec tn sn items N) := by
  have hmax : max 0 N = N := by omega
  have hdt := resolvedTopicSpec_ne_empty tn (items.take N.toNat)
  simp only [persistParsedQuestions, hmax, if_pos h, ← List.map_take,
             resolveDocumentTopic_toJson, except_bind_ok, persistLoop_toJson,
             persistSpec]
  simp [pyOrStr2, hdt, List.length_map]

/-- A 503 overload error as reported by the backend. -/
def overloadErr : ServerErrorInfo := ⟨some 503, "503 UNAVAILABLE. The model is overloaded."⟩

/-- A sample backend whose primary-budget call is overloaded and whose
fallback call succeeds. -/
def overloadedThenOkBackend : ModelCall → Except BackendFailure GenResponse :=
  fun c => if c.thinking_budget = 128 then .error (.serverError overloadErr) else .ok ⟨some "[]"⟩

/-- Witness for C1: with a primary call that reports overload, the pipeline
makes exactly the two calls, the fallback with thinking budget 0, and returns
the secondary outcome. -/
theorem fallback_overload_policy_witness :
    generateWithFallbackParts overloadedThenOkBackend "model-1" "model-2"
      = (overloadedThenOkBackend ⟨"model-2", 0⟩, [⟨"model-1", 128⟩, ⟨"model-2", 0⟩]) :=
  (fallback_overload_policy overloadedThenOkBackend "model-1" "model-2").2.1
    overloadErr rfl (by decide)

/-! ## Theorems for claim C2 -/

/-- An item whose topic field holds a whitespace-only (hence non-empty)
string. -/
def wsTopicItem : Json := .obj [("topic", .str " ")]

/-- Claim C2, counterexample: with no caller topic and a single item whose
topic field is the non-empty string " ", the resolved document topic is
"General", not " ": the scan strips each candidate and skips it when the
stripped value is empty, so the first non-empty per-item topic field is not
adopted as the claim states. -/
theorem topic_resolution_cex :
    (" " : String) ≠ "" ∧
    resolveDocumentTopic none true [wsTopicItem] = .ok (some "General") ∧
    ("General" : String) ≠ " " ∧
    persistParsedQuestions none none [wsTopicItem] 25 true
      = .ok { rows := [{ topicName := "General"
                       , subTopicName := "Misc"
                       , question_text := none
                       , explanation := none
                       , image_url := none
                       , choices := [] }]
            , summary := { status := "ok", requested := 25, created := 1
                         , topic := "General" } } :=
  ⟨by decide, rfl, by decide, rfl⟩

/-- Claim C2 as amended: if the caller supplied a non-empty topic, it is the
resolved document topic and every persisted item row carries it (stripped at
insert); otherwise the resolved topic is the stripped value of the first
per-item topic field that is non-empty after stripping whitespace, in
original item order, defaulting to "General" when no such field exists. -/
theorem topic_resolution_amended (topic_name sub_topic_name : Option String)
    (items : List ItemSpec) :
    resolveDocumentTopic topic_name true (items.map ItemSpec.toJson)
      = .ok (some (resolvedTopicSpec topic_name items)) ∧
    (∀ t, pyOrNone topic_name = some t → resolvedTopicSpec topic_name items = t) ∧
    (pyOrNone topic_name = none →
      resolvedTopicSpec topic_name items = (amendedFirstTopic items).getD "General") ∧
    persistLoop true (some (resolvedTopicSpec topic_name items)) topic_name sub_topic_name
        (items.map ItemSpec.toJson)
      = .ok (items.map (specRow (resolvedTopicSpec topic_name items) sub_topic_name)) ∧
    (∀ row ∈ items.map (specRow (resolvedTopicSpec topic_name items) sub_topic_name),
      row.topicName = pyStrip (resolvedTopicSpec topic_name items)) := by
  refine ⟨resolveDocumentTopic_toJson topic_name items, ?_, ?_,
          persistLoop_toJson _ topic_name sub_topic_name items, ?_⟩
  · intro t ht
    simp [resolvedTopicSpec, ht]
  · intro h
    simp [resolvedTopicSpec, h]
  · intro row hrow
    rcases List.mem_map.mp hrow with ⟨i, _, rfl⟩
    rfl

/-- The spec's own example items: no caller topic, first item topic empty,
second item topic "History". -/
def historyItems : List ItemSpec := [{ topic := some "" }, { topic := some "History" }]

/-- Witness for the amended C2: on the spec's example the scan resolves
"History" and the code computes exactly that. -/
theorem topic_resolution_amended_witness :
    resolveDocumentTopic none true (historyItems.map ItemSpec.toJson)
      = .ok (some (resolvedTopicSpec none historyItems)) ∧
    resolvedTopicSpec none historyItems = (amendedFirstTopic historyItems).getD "General" ∧
    (amendedFirstTopic historyItems).getD "General" = "History" :=
  ⟨(topic_resolution_amended none none historyItems).1,
   (topic_resolution_amended none none historyItems).2.2.1 rfl,
   by decide⟩

/-! ## Theorems for claim C3 -/

/-- Claim C3: with requested count N > 0 the persistence step processes
exactly the first min(N, length) schema-conforming items — a longer list is
truncated, a shorter one is processed as-is with no padding and no error —
and the reported created count is min(N, length), hence at most N, and
equals the list length when no more than N items were returned. -/
theorem count_truncation (tn sn : Option String) (items : List ItemSpec)
    (N : Int) (h : 0 < N) :
    persistParsedQuestions tn sn (items.map ItemSpec.toJson) N true
      = .ok (persistSpec tn sn items N) ∧
    (persistSpec tn sn items N).rows
      = (items.take N.toNat).map
          (specRow (resolvedTopicSpec tn (items.take N.toNat)) sn) ∧
    (persistSpec tn sn items N).summary.created = min N.toNat items.length ∧
    ((persistSpec tn sn items N).summary.created : Int) ≤ N ∧
    ((items.length : Int) ≤ N →
      (persistSpec tn sn items N).summary.created = items.length) := by
  have hN : ((N.toNat : Int)) = N := Int.toNat_of_nonneg (le_of_lt h)
  refine ⟨persistParsed_toJson tn sn items N h, rfl, ?_, ?_, ?_⟩
  · simp [persistSpec, List.length_take]
  · simp [persistSpec, List.length_take]
    omega
  · intro hle
    simp [persistSpec, List.length_take]
    omega

/-- Two schema-conforming items for the truncation witness. -/
def twoItems : List ItemSpec :=
  [{ question_text := some "q1", choices := ["a", "b"], correct_index := some 0 },
   { question_text := some "q2", choices := ["c", "d"], correct_index := some 1 }]

/-- Witness for C3: two returned items under a requested count of 5 persist
as-is and report created = 2. -/
theorem count_truncation_witness :
    persistParsedQuestions none none (twoItems.map ItemSpec.toJson) 5 true
      = .ok (persistSpec none none twoItems 5) ∧
    (persistSpec none none twoItems 5).summary.created = twoItems.length :=
  ⟨(count_truncation none none twoItems 5 (by decide)).1,
   (count_truncation none none twoItems 5 (by decide)).2.2.2.2 (by decide)⟩

/-! ## Theorems for claims C4 and C9 -/

/-- Claim C4: a persisted item with k options and integer correct_index c is
never rejected, persists exactly k choice rows, and a row's is_correct flag
is true exactly at position c — so for c in range exactly one choice is
correct, and for c outside the range 0 ≤ c < k (including negative c) every
choice is persisted with is_correct false. -/
theorem choice_marking (dt : String) (tn sn : Option String) (i : ItemSpec)
    (c : Int) (hc : i.correct_index = some c) :
    processItem true (some dt) tn sn i.toJson = .ok (specRow dt sn i) ∧
    (specRow dt sn i).choices.length = i.choices.length ∧
    (∀ j (hj : j < (specRow dt sn i).choices.length),
      (((specRow dt sn i).choices.get ⟨j, hj⟩).is_correct = true ↔ (j : Int) = c)) := by
  refine ⟨processItem_toJson dt tn sn i, by simp [specRow], ?_⟩
  intro j hj
  simp [specRow, hc, List.getElem_enum]

/-- The item of the spec's worked example: four options, correct_index 2. -/
def fourOptionItem : ItemSpec := { choices := ["a", "b", "c", "d"], correct_index := some 2 }

/-- Witness for C4: with correct_index 2 and four options the third persisted
choice is the correct one. -/
theorem choice_marking_witness :
    processItem true (some "T") none none fourOptionItem.toJson
      = .ok (specRow "T" none fourOptionItem) ∧
    (((specRow "T" none fourOptionItem).choices.get ⟨2, by decide⟩).is_correct = true
      ↔ ((2 : Nat) : Int) = 2) ∧
    (((specRow "T" none fourOptionItem).choices.get ⟨3, by decide⟩).is_correct = true
      ↔ ((3 : Nat) : Int) = 2) :=
  ⟨(choice_marking "T" none none fourOptionItem 2 rfl).1,
   (choice_marking "T" none none fourOptionItem 2 rfl).2.2 2 (by decide),
   (choice_marking "T" none none fourOptionItem 2 rfl).2.2 3 (by decide)⟩

/-- Claim C9: an item without a correct_index field defaults the index to 0,
so when at least one option exists the first persisted choice carries
is_correct true. -/
theorem default_correct_index (dt : String) (tn sn : Option String) (i : ItemSpec)
    (hc : i.correct_index = none) (t : String) (rest : List String)
    (hch : i.choices = t :: rest) :
    processItem true (some dt) tn sn i.toJson = .ok (specRow dt sn i) ∧
    (specRow dt sn i).choices.head? = some ⟨Json.str t, true⟩ := by
  refine ⟨processItem_toJson dt tn sn i, ?_⟩
  simp [specRow, hc, hch, List.enum_cons]

/-- An item with two options and no correct_index field. -/
def noIndexItem : ItemSpec := { choices := ["a", "b"] }

/-- Witness for C9: without a correct_index field the first of two options is
marked correct. -/
theorem default_correct_index_witness :
    processItem true (some "T") none none noIndexItem.toJson
      = .ok (specRow "T" none noIndexItem) ∧
    (specRow "T" none noIndexItem).choices.head? = some ⟨Json.str "a", true⟩ :=
  ⟨(default_correct_index "T" none none noIndexItem rfl "a" ["b"] rfl).1,
   (default_correct_index "T" none none noIndexItem rfl "a" ["b"] rfl).2⟩

/-! ## Theorems for claim C5 -/

/-- A six-entry batch whose last entry is blank. -/
def cexSixUrls : List String :=
  ["http://a.example/x", "http://b.example/x", "http://c.example/x",
   "http://d.example/x", "http://e.example/x", ""]

/-- A network on which every GET fails at the transport level. -/
def transportFailEnv : NetEnv := ⟨fun _ => .transportError⟩

/-- A backend that always answers with an empty item array. -/
def emptyArrayBackend : ModelCall → Except BackendFailure GenResponse :=
  fun _ => .ok ⟨some "[]"⟩

/-- Claim C5, counterexample: a batch with six entries does not fail with
too_many_links — blank entries are dropped before the length check, so this
batch passes validation and a fetch is attempted (here failing at transport
level after the first GET). -/
theorem link_batch_validation_cex :
    cexSixUrls.length = 6 ∧
    generateFromLinksBody transportFailEnv emptyArrayBackend "m1" "m2"
        cexSixUrls "small" none none
      = (.error (.httpError "failed_to_fetch_url"), [.fetch "http://a.example/x"]) :=
  ⟨rfl, rfl⟩

/-- Claim C5 as amended: validation is applied to the cleaned entry list
(entries stripped of whitespace, blank entries dropped): a batch with no
non-blank entry — in particular an empty batch — fails with
no_urls_provided, and a batch with more than 5 non-blank entries fails with
too_many_links; both failures happen with an empty event trace, before any
fetch, upload, or model call. -/
theorem link_batch_validation_amended (env : NetEnv)
    (backend : ModelCall → Except BackendFailure GenResponse)
    (mp ms : String) (urls : List String) (size : String) (t st : Option String) :
    (normalizedLinkUrls urls = [] →
      generateFromLinksBody env backend mp ms urls size t st
        = (.error (.httpError "no_urls_provided"), [])) ∧
    ((normalizedLinkUrls urls).length > 5 →
      generateFromLinksBody env backend mp ms urls size t st
        = (.error (.httpError "too_many_links"), [])) := by
  constructor
  · intro h
    simp [generateFromLinksBody, h]
  · intro h
    have hne : ¬(normalizedLinkUrls urls).isEmpty := by
      cases hu : normalizedLinkUrls urls with
      | nil => rw [hu] at h; simp at h
      | cons a l => simp [List.isEmpty]
    simp only [generateFromLinksBody]
    rw [if_neg (by simpa using hne), if_pos h]

/-- Witness for the amended C5: an all-blank two-entry batch fails with
no_urls_provided, and a six-entry all-non-blank batch fails with
too_many_links, both with no network events. -/
theorem link_batch_validation_amended_witness :
    generateFromLinksBody transportFailEnv emptyArrayBackend "m1" "m2"
        ["", "  "] "small" none none
      = (.error (.httpError "no_urls_provided"), []) ∧
    generateFromLinksBody transportFailEnv emptyArrayBackend "m1" "m2"
        ["u1", "u2", "u3", "u4", "u5", "u6"] "small" none none
      = (.error (.httpError "too_many_links"), []) :=
  ⟨(link_batch_validation_amended transportFailEnv emptyArrayBackend "m1" "m2"
      ["", "  "] "small" none none).1 rfl,
   (link_batch_validation_amended transportFailEnv emptyArrayBackend "m1" "m2"
      ["u1", "u2", "u3", "u4", "u5", "u6"] "small" none none).2 (by decide)⟩

/-! ## Theorems for claim C6 -/

/-- Claim C6, counterexample: the size token "TINY" lies outside the set
of the three recognized spellings, yet it resolves to 5 rather than to the
default 25, because the lookup is performed on the lower-cased token. -/
theorem size_token_cex :
    ("TINY" ∉ (["tiny", "small", "large"] : List String)) ∧
    sizeToCount "TINY" = 5 ∧
    (5 : Nat) ≠ 25 :=
  ⟨by decide, rfl, by decide⟩

/-- Claim C6 as amended: the requested count is resolved from the
lower-cased size token — 5 for tiny, 25 for small, 50 for large, and 25 for
any token whose lower-cased form is none of the three. -/
theorem size_token_amended (s : String) :
    (pyLower s = "tiny" → sizeToCount s = 5) ∧
    (pyLower s = "small" → sizeToCount s = 25) ∧
    (pyLower s = "large" → sizeToCount s = 50) ∧
    (pyLower s ≠ "tiny" → pyLower s ≠ "small" → pyLower s ≠ "large" →
      sizeToCount s = 25) := by
  refine ⟨?_, ?_, ?_, ?_⟩
  · intro h
    simp [sizeToCount, SIZE_TO_COUNT, List.lookup, h]
  · intro h
    simp [sizeToCount, SIZE_TO_COUNT, List.lookup, h]
  · intro h
    simp [sizeToCount, SIZE_TO_COUNT, List.lookup, h]
  · intro h1 h2 h3
    have hb1 : (pyLower s == "tiny") = false := beq_eq_false_iff_ne.mpr h1
    have hb2 : (pyLower s == "small") = false := beq_eq_false_iff_ne.mpr h2
    have hb3 : (pyLower s == "large") = false := beq_eq_false_iff_ne.mpr h3
    simp [sizeToCount, SIZE_TO_COUNT, List.lookup, hb1, hb2, hb3]

/-- Witness for the amended C6 at all four branches, showing in particular
the case-insensitive resolution of mixed-case tokens. -/
theorem size_token_amended_witness :
    sizeToCount "TINY" = 5 ∧ sizeToCount "Small" = 25 ∧
    sizeToCount "LARGE" = 50 ∧ sizeToCount "medium" = 25 :=
  ⟨(size_token_amended "TINY").1 rfl,
   (size_token_amended "Small").2.1 rfl,
   (size_token_amended "LARGE").2.2.1 rfl,
   (size_token_amended "medium").2.2.2 (by decide) (by decide) (by decide)⟩

/-! ## Theorems for claim C7 -/

/-- A non-YouTube URL resolves to one of four outcomes, each of whose event
traces starts with the fetch. -/
theorem createContentPart_not_youtube (env : NetEnv) (url : String)
    (h : detectYoutube url = false) :
    createContentPartForUrl env url = (.error "failed_to_fetch_url", [.fetch url]) ∨
    createContentPartForUrl env url = (.error "bad_url_status", [.fetch url]) ∨
    createContentPartForUrl env url = (.error "unsupported_content_type", [.fetch url]) ∨
    ∃ body m, createContentPartForUrl env url
      = (.ok (.uploadedFile body m), [.fetch url, .upload m]) := by
  unfold createContentPartForUrl
  rw [if_neg (by simp [h])]
  cases env.fetch url with
  | transportError => exact Or.inl rfl
  | response status ct body =>
    dsimp only
    by_cases hs : status ≠ 200
    · rw [if_pos hs]
      exact Or.inr (Or.inl rfl)
    · rw [if_neg hs]
      by_cases hm : (!(inferMimeType url ct = "application/pdf"
          || inferMimeType url ct = "text/html"
          || inferMimeType url ct = "text/plain")) = true
      · rw [if_pos hm]
        exact Or.inr (Or.inr (Or.inl rfl))
      · rw [if_neg hm]
        exact Or.inr (Or.inr (Or.inr ⟨body, inferMimeType url ct, rfl⟩))

/-- Claim C7: a URL resolves to an opaque file_uri content part with no
network activity exactly when its host matches a known video-hosting domain
(detect_youtube); every other URL first produces an HTTP fetch as its first
network event, never yields a file_uri part, and any upload it performs
comes strictly after that fetch. -/
theorem youtube_part_policy (env : NetEnv) (url : String) :
    (detectYoutube url = true →
      createContentPartForUrl env url = (.ok (.fileData url), [])) ∧
    (detectYoutube url = false →
      (createContentPartForUrl env url).2.head? = some (.fetch url) ∧
      (∀ u, (createContentPartForUrl env url).1 ≠ .ok (.fileData u)) ∧
      (∀ m, NetEvent.upload m ∈ (createContentPartForUrl env url).2 →
        (createContentPartForUrl env url).2 = [.fetch url, .upload m])) := by
  constructor
  · intro h
    simp [createContentPartForUrl, h]
  · intro h
    rcases createContentPart_not_youtube env url h with heq | heq | heq | ⟨body, m, heq⟩ <;>
      rw [heq]
    · exact ⟨rfl, by simp, by simp⟩
    · exact ⟨rfl, by simp, by simp⟩
    · exact ⟨rfl, by simp, by simp⟩
    · refine ⟨rfl, by simp, ?_⟩
      intro m2 hm2
      simp at hm2
      simp [hm2]

/-- A network answering every GET with a 200 HTML response. -/
def okHtmlEnv : NetEnv := ⟨fun _ => .response 200 "text/html" "body"⟩

/-- Witness for C7: a YouTube watch URL yields a file_uri part with no
events, while an ordinary URL's first event is the fetch. -/
theorem youtube_part_policy_witness :
    createContentPartForUrl okHtmlEnv "https://www.youtube.com/watch"
      = (.ok (.fileData "https://www.youtube.com/watch"), []) ∧
    (createContentPartForUrl okHtmlEnv "http://a.example/x").2.head?
      = some (.fetch "http://a.example/x") :=
  ⟨(youtube_part_policy okHtmlEnv "https://www.youtube.com/watch").1 (by decide),
   ((youtube_part_policy okHtmlEnv "http://a.example/x").2 (by decide)).1⟩

/-! ## Theorems for claim C8 -/

/-- Claim C8: when the model call chain succeeds but its output text is not
valid JSON, the request fails with the JSON parse error — an error result,
never a status-ok summary — and the model-call trace is exactly the calls
already made by the fallback logic: the generation call is not retried. -/
theorem malformed_response_policy
    (backend : ModelCall → Except BackendFailure GenResponse)
    (mp ms : String) (tn sn : Option String) (count : Int)
    (r : GenResponse) (calls : List ModelCall)
    (hok : generateWithFallbackParts backend mp ms = (.ok r, calls))
    (hbad : jsonParse (normalizeResponseText r.text) = none) :
    runGenerationAndPersist backend mp ms tn sn count
      = (.error (.persistError .jsonDecodeError), calls) := by
  simp [runGenerationAndPersist, hok, persistGeneratedQuestions, hbad]

/-- A backend whose primary call succeeds with non-JSON output text. -/
def badJsonBackend : ModelCall → Except BackendFailure GenResponse :=
  fun _ => .ok ⟨some "not json"⟩

/-- Witness for C8: a non-JSON payload fails the request with the parse
error after exactly the one generation call already made. -/
theorem malformed_response_policy_witness :
    runGenerationAndPersist badJsonBackend "m1" "m2" (some "Bio") none 25
      = (.error (.persistError .jsonDecodeError), [⟨"m1", 128⟩]) :=
  malformed_response_policy badJsonBackend "m1" "m2" (some "Bio") none 25
    ⟨some "not json"⟩ [⟨"m1", 128⟩] rfl rfl

/-! ## Theorems for claim C10 -/

theorem pyOrNone_idem (s : Option String) : pyOrNone (pyOrNone s) = pyOrNone s := by
  cases s with
  | none => rfl
  | some t =>
    by_cases h : t = "" <;> simp [pyOrNone, h]

/-- Persisting the literal "[]" succeeds with no rows, created 0 and the
caller topic (or "General") as the reported topic. -/
theorem persist_empty_array (tn sn : Option String) (count : Int) :
    persistGeneratedQuestions tn sn "[]" count true
      = .ok { rows := []
            , summary := { status := "ok", requested := count, created := 0
                         , topic := pyOrStr (pyOrNone tn) "General" } } := by
  have hp : jsonParse "[]" = some (.arr []) := rfl
  simp only [persistGeneratedQuestions, hp, wrapAsList]
  cases htn : pyOrNone tn with
  | none =>
    simp [persistParsedQuestions, resolveDocumentTopic, firstItemTopic, htn,
          persistLoop, pyOrStr2, pyOrStr, List.take]
  | some t =>
    have ht : t ≠ "" := pyOrNone_ne_empty tn t htn
    simp [persistParsedQuestions, resolveDocumentTopic, firstItemTopic, htn,
          persistLoop, pyOrStr2, pyOrStr, ht, List.take]

/-- Claim C10: when the model call chain succeeds with an empty or absent
response text, the text is replaced by "[]" and the request completes
successfully with created 0, status "ok" and no rows inserted. -/
theorem empty_response_ok
    (backend : ModelCall → Except BackendFailure GenResponse)
    (mp ms : String) (tn sn : Option String) (count : Int)
    (r : GenResponse) (calls : List ModelCall)
    (hok : generateWithFallbackParts backend mp ms = (.ok r, calls))
    (hempty : r.text = none ∨ r.text = some "") :
    runGenerationAndPersist backend mp ms tn sn count
      = (.ok { rows := []
             , summary := { status := "ok", requested := count, created := 0
                          , topic := pyOrStr (pyOrNone tn) "General" } }, calls) := by
  have htext : normalizeResponseText r.text = "[]" := by
    rcases hempty with h | h <;> simp [normalizeResponseText, h]
  simp [runGenerationAndPersist, hok, htext, persist_empty_array, pyOrNone_idem]

/-- A backend whose primary call succeeds with an absent response text. -/
def noTextBackend : ModelCall → Except BackendFailure GenResponse :=
  fun _ => .ok ⟨none⟩

/-- Witness for C10: an absent response text yields a status-ok result with
created 0 after the single generation call. -/
theorem empty_response_ok_witness :
    runGenerationAndPersist noTextBackend "m1" "m2" (some "Bio") none 25
      = (.ok { rows := []
             , summary := { status := "ok", requested := 25, created := 0
                          , topic := "Bio" } }, [⟨"m1", 128⟩]) :=
  empty_response_ok noTextBackend "m1" "m2" (some "Bio") none 25
    ⟨none⟩ [⟨"m1", 128⟩] rfl (Or.inl rfl)
